import Mathlib

/-
Shallow embedding of src/main.py (AI vs AI Cyber Battle Platform backend).

Python dicts are modelled as insertion-ordered association lists
(`List (String × α)`) with `pyGet?` (membership / `d[k]` read) and
`dictSet` (`d[k] = v`: overwrite in place, append at the end when the
key is fresh).  Machine randomness (`random.choice`, `random.uniform`)
is passed in explicitly: a choice as a natural-number index reduced
modulo the list length, a uniform draw over `[a, b)` as a rational
`r ∈ [0, 1)` mapped to `a + (b - a) * r`.  Raised exceptions are
modelled as `Option`/explicit error results.
-/

namespace CyberBattle

/-- Python dict read: first (and only) binding of `k`, `none` when absent. -/
def pyGet? {α : Type} (d : List (String × α)) (k : String) : Option α :=
  match d with
  | [] => none
  | (k', v) :: rest => if k' = k then some v else pyGet? rest k

/-- Python dict write `d[k] = v`: overwrite the existing binding of `k`,
append a fresh binding at the end otherwise. -/
def dictSet {α : Type} (d : List (String × α)) (k : String) (v : α) :
    List (String × α) :=
  match d with
  | [] => [(k, v)]
  | (k', v') :: rest =>
    if k' = k then (k, v) :: rest else (k', v') :: dictSet rest k v

theorem pyGet?_dictSet_self {α : Type} (d : List (String × α)) (k : String) (v : α) :
    pyGet? (dictSet d k v) k = some v := by
  induction d with
  | nil => simp [dictSet, pyGet?]
  | cons hd tl ih =>
    obtain ⟨k', v'⟩ := hd
    by_cases h : k' = k <;> simp [dictSet, pyGet?, h, ih]

theorem pyGet?_dictSet_ne {α : Type} (d : List (String × α)) (k o : String) (v : α)
    (h : o ≠ k) : pyGet? (dictSet d k v) o = pyGet? d o := by
  have h' : ¬ k = o := fun hh => h hh.symm
  induction d with
  | nil => simp [dictSet, pyGet?, h']
  | cons hd tl ih =>
    obtain ⟨k', v'⟩ := hd
    by_cases hk : k' = k
    · subst hk
      simp [dictSet, pyGet?, h']
    · simp [dictSet, pyGet?, hk, ih]

/-- One simulated move (the dict built by `generate_ai_action`): either an
attack record or a defense record. -/
inductive Action where
  | attack (timestamp actor technique description : String)
      (threat_level : Int) (success_probability : ℚ)
  | defense (timestamp actor strategy description : String)
      (effectiveness : ℚ)
deriving DecidableEq

/-- `class BattleState(BaseModel)` from src/main.py. -/
structure BattleState where
  battle_id : String
  scenario : String
  attacker_persona : String
  defender_persona : String
  current_phase : String
  threat_level : Int
  audience_votes : List (String × Int)
  battle_log : List Action
  is_active : Bool
deriving DecidableEq

/-- Outbound broadcast envelope (the JSON object handed to
`manager.broadcast`), discriminated by its `type` field. -/
inductive Envelope where
  | battle_started (battle : BattleState)
  | vote_update (votes : List (String × Int))
  | battle_action (action : Action) (battle_state : BattleState)
deriving DecidableEq

/-- The module-level mutable state of src/main.py: the `battles` dict, the
`current_battle_id` pointer and the connection manager's
`active_connections` list (sessions as opaque numeric handles). -/
structure AppState where
  battles : List (String × BattleState)
  current_battle_id : Option String
  active_connections : List Nat
deriving DecidableEq

/-- An entry of `ATTACKER_PERSONAS`. -/
structure AttackerPersona where
  name : String
  description : String
  threat_level : Int
  techniques : List String
deriving DecidableEq

/-- An entry of `DEFENDER_PERSONAS`. -/
structure DefenderPersona where
  name : String
  description : String
  strategy : String
deriving DecidableEq

/-- The static `ATTACKER_PERSONAS` table. -/
def ATTACKER_PERSONAS : List (String × AttackerPersona) :=
  [("script_kiddie",
    ⟨"Script Kiddie", "Novice hacker using basic tools", 1,
     ["Phishing", "Malware", "Social Engineering"]⟩),
   ("cybercriminal",
    ⟨"Cybercriminal", "Organized crime member with moderate skills", 3,
     ["Ransomware", "Banking Trojans", "Credential Theft"]⟩),
   ("apt_group",
    ⟨"APT Group", "Advanced Persistent Threat with sophisticated methods", 7,
     ["Zero-day Exploits", "Living off the Land", "Supply Chain Attacks"]⟩),
   ("insider_threat",
    ⟨"Insider Threat", "Malicious employee with privileged access", 5,
     ["Data Exfiltration", "Privilege Escalation", "Backdoor Installation"]⟩),
   ("nation_state",
    ⟨"Nation-State Actor", "State-sponsored cyber warfare unit", 10,
     ["Infrastructure Attacks", "Espionage", "Cyber Warfare"]⟩)]

/-- The static `DEFENDER_PERSONAS` table. -/
def DEFENDER_PERSONAS : List (String × DefenderPersona) :=
  [("security_analyst",
    ⟨"Security Analyst", "Front-line defender monitoring threats",
     "Reactive monitoring and incident response"⟩),
   ("threat_hunter",
    ⟨"Threat Hunter", "Proactive threat detection specialist",
     "Proactive hunting and threat intelligence"⟩),
   ("incident_responder",
    ⟨"Incident Responder", "Emergency response and containment expert",
     "Rapid containment and forensic analysis"⟩),
   ("security_architect",
    ⟨"Security Architect", "Strategic defense planning specialist",
     "Defense-in-depth and architectural security"⟩),
   ("ai_defender",
    ⟨"AI Defender", "Machine learning powered defense system",
     "Automated threat detection and response"⟩)]

/-- `raise HTTPException(status_code=..., detail=...)`. -/
structure HTTPError where
  status_code : Nat
  detail : String
deriving DecidableEq

/-- The JSON body returned by a successful `cast_vote`. -/
structure VoteOk where
  message : String
  votes : List (String × Int)
deriving DecidableEq

/-- The JSON body returned by `start_battle`. -/
structure StartResp where
  message : String
  battle_id : String
  battle : BattleState
deriving DecidableEq

/-- The guard shared by `get_current_battle`, `cast_vote` and the websocket
loop: `current_battle_id and current_battle_id in battles` (Python
truthiness: `None` and the empty string are both falsy).  Returns the
current id together with `battles[current_battle_id]` when the guard
passes. -/
def currentLookup (st : AppState) : Option (String × BattleState) :=
  match st.current_battle_id with
  | none => none
  | some bid =>
    if bid = "" then none
    else match pyGet? st.battles bid with
      | none => none
      | some b => some (bid, b)

/-- `start_battle` (src/main.py lines 202-229).  `t` is `int(time.time())`
at the moment of the call; the result is the new state, the payloads
handed to `manager.broadcast`, and the response body. -/
def start_battle (st : AppState) (t : Nat)
    (scenario attacker defender : String) :
    AppState × List Envelope × StartResp :=
  let battle_id := "battle_" ++ toString t
  let battle : BattleState :=
    { battle_id := battle_id
      scenario := scenario
      attacker_persona := attacker
      defender_persona := defender
      current_phase := "reconnaissance"
      threat_level := 1
      audience_votes := []
      battle_log := []
      is_active := true }
  let st' : AppState :=
    { st with
      current_battle_id := some battle_id
      battles := dictSet st.battles battle_id battle }
  (st', [Envelope.battle_started battle],
   ⟨"Battle started", battle_id, battle⟩)

/-- `get_current_battle` (src/main.py lines 231-235): the current battle
when one is active, `None` otherwise. -/
def get_current_battle (st : AppState) : Option BattleState :=
  (currentLookup st).map (fun p => p.2)

/-- The tally update of `cast_vote` (src/main.py lines 243-245):
`if option not in votes: votes[option] = 0` then `votes[option] += 1`. -/
def voteIncr (d : List (String × Int)) (k : String) : List (String × Int) :=
  let d0 := if (pyGet? d k).isNone then dictSet d k 0 else d
  dictSet d0 k ((pyGet? d0 k).getD 0 + 1)

/-- `cast_vote` (src/main.py lines 237-253).  Returns the new state, the
payloads handed to `manager.broadcast`, and the HTTP result. -/
def cast_vote (st : AppState) (option : String) (user_id : String) :
    AppState × List Envelope × Except HTTPError VoteOk :=
  match currentLookup st with
  | none => (st, [], Except.error ⟨404, "No active battle"⟩)
  | some (bid, battle) =>
    let votes := voteIncr battle.audience_votes option
    let battle' := { battle with audience_votes := votes }
    let st' := { st with battles := dictSet st.battles bid battle' }
    (st', [Envelope.vote_update votes],
     Except.ok ⟨"Vote cast successfully", votes⟩)

theorem pyGet?_voteIncr (d : List (String × Int)) (k o : String) :
    pyGet? (voteIncr d k) o =
      if o = k then some ((pyGet? d k).getD 0 + 1) else pyGet? d o := by
  by_cases ho : o = k
  · subst ho
    cases h : pyGet? d o with
    | none => simp [voteIncr, h, pyGet?_dictSet_self]
    | some v => simp [voteIncr, h, pyGet?_dictSet_self]
  · cases h : pyGet? d k with
    | none =>
      simp [voteIncr, h, ho, pyGet?_dictSet_ne _ _ _ _ ho]
    | some v =>
      simp [voteIncr, h, ho, pyGet?_dictSet_ne _ _ _ _ ho]

/-- `ConnectionManager.broadcast` (src/main.py lines 44-49).  `send c m`
models `await connection.send_text(m)` for connection `c`; an
`Except.error` models a raised send exception, swallowed by the bare
`except: pass`.  The result is the list of `(connection, message)`
deliveries that actually happened; the function is total, so no
exception ever reaches the caller. -/
def broadcast (send : Nat → String → Except String Unit)
    (conns : List Nat) (message : String) : List (Nat × String) :=
  conns.filterMap (fun c =>
    match send c message with
    | Except.ok _ => some (c, message)
    | Except.error _ => none)

/-- `random.choice(xs)`: the chosen index is supplied as `i` and reduced
modulo the length; on an empty list the result is `none` (Python raises
`IndexError`). -/
def randomChoice {α : Type} (xs : List α) (i : Nat) : Option α :=
  xs.get? (i % xs.length)

/-- `random.uniform(a, b)` in exact arithmetic: `a + (b - a) * r` for a
uniform draw `r ∈ [0, 1)`. -/
def pyUniform (a b r : ℚ) : ℚ := a + (b - a) * r

/-- `generate_ai_action` (src/main.py lines 305-334).  `ts` is
`datetime.now().isoformat()`, `actionIdx` the index drawn by
`random.choice` over the four labels, `techIdx` the index drawn over the
attacker's technique list, `r` the uniform draw.  `none` models a raised
exception (`KeyError` on an unknown persona tag, `IndexError` on an
empty technique list). -/
def generate_ai_action (battle : BattleState) (user_input : Option String)
    (ts : String) (actionIdx techIdx : Nat) (r : ℚ) : Option Action :=
  match pyGet? ATTACKER_PERSONAS battle.attacker_persona,
        pyGet? DEFENDER_PERSONAS battle.defender_persona with
  | some attacker, some defender =>
    match randomChoice ["attack", "defend", "reconnaissance", "escalation"]
        actionIdx with
    | none => none
    | some action_type =>
      if action_type = "attack" then
        match randomChoice attacker.techniques techIdx with
        | none => none
        | some technique =>
          some (Action.attack ts attacker.name technique
            (attacker.name ++ " launches " ++ technique ++ " attack")
            attacker.threat_level
            (pyUniform (3/10) (9/10) r))
      else
        some (Action.defense ts defender.name defender.strategy
          (defender.name ++ " implements " ++ defender.strategy)
          (pyUniform (2/5) (19/20) r))
  | _, _ => none

/-- One frame received by the websocket loop. `malformed` is a text that
`json.loads` rejects (or a non-dict value, so that `message["type"]`
raises `TypeError`); `noType` is a JSON object with no `"type"` key
(`KeyError`); `typed` carries the decoded `type`, the optional
`user_input`, and the randomness consumed if an action is generated. -/
inductive Frame where
  | disconnect
  | malformed
  | noType
  | typed (t : String) (user_input : Option String) (ts : String)
      (actionIdx techIdx : Nat) (r : ℚ)
deriving DecidableEq

/-- How the `while True` loop of `websocket_endpoint` ends. -/
inductive ExitKind where
  | disconnected
  | errored
deriving DecidableEq

/-- The outcome of one iteration of the loop body. -/
inductive StepOut where
  | cont (st : AppState) (sent : List Envelope)
  | disconnectExit
  | errorExit
deriving DecidableEq

/-- One iteration of the `while True` body of `websocket_endpoint`
(src/main.py lines 282-300).  `disconnectExit` is a raised
`WebSocketDisconnect`; `errorExit` is any other uncaught exception
(malformed JSON, missing `"type"` key, or an exception from
`generate_ai_action`). -/
def wsStep (st : AppState) (f : Frame) : StepOut :=
  match f with
  | Frame.disconnect => StepOut.disconnectExit
  | Frame.malformed => StepOut.errorExit
  | Frame.noType => StepOut.errorExit
  | Frame.typed t user_input ts actionIdx techIdx r =>
    if t = "battle_action" then
      match currentLookup st with
      | none => StepOut.cont st []
      | some (bid, battle) =>
        match generate_ai_action battle user_input ts actionIdx techIdx r with
        | none => StepOut.errorExit
        | some action =>
          let battle' := { battle with battle_log := battle.battle_log ++ [action] }
          let st' := { st with battles := dictSet st.battles bid battle' }
          StepOut.cont st' [Envelope.battle_action action battle']
    else
      StepOut.cont st []

/-- The `while True` loop of `websocket_endpoint` run over a trace of
inbound frames.  Returns the final state, every payload handed to
`manager.broadcast`, and how (whether) the loop exited. -/
def wsLoop (st : AppState) : List Frame → AppState × List Envelope × Option ExitKind
  | [] => (st, [], none)
  | f :: rest =>
    match wsStep st f with
    | StepOut.cont st' sent =>
      let r := wsLoop st' rest
      (r.1, sent ++ r.2.1, r.2.2)
    | StepOut.disconnectExit => (st, [], some ExitKind.disconnected)
    | StepOut.errorExit => (st, [], some ExitKind.errored)

/-- `websocket_endpoint` (src/main.py lines 278-303): register the session
(`manager.connect` appends to `active_connections`), run the receive
loop, and — only when the loop ended in the `except WebSocketDisconnect`
clause — `manager.disconnect` (`list.remove`, i.e. erase the first
occurrence).  Any other exception propagates with no cleanup. -/
def websocket_endpoint (st : AppState) (ws : Nat) (frames : List Frame) :
    AppState × List Envelope × Option ExitKind :=
  let stConn := { st with active_connections := st.active_connections ++ [ws] }
  let r := wsLoop stConn frames
  match r.2.2 with
  | some ExitKind.disconnected =>
    ({ r.1 with active_connections := r.1.active_connections.erase ws },
     r.2.1, r.2.2)
  | _ => r

/-- A sequence of `cast_vote` calls against the store (the `user_id` query
parameter left at its default `"anonymous"`): final state and the result
returned by the last call. -/
def castVoteSeq (st : AppState) :
    List String → AppState × Option (Except HTTPError VoteOk)
  | [] => (st, none)
  | o :: os =>
    let r := cast_vote st o "anonymous"
    let rest := castVoteSeq r.1 os
    (rest.1, some (rest.2.getD r.2.2))

theorem cast_vote_active (st : AppState) (bid : String) (b : BattleState)
    (o uid : String) (h : currentLookup st = some (bid, b)) :
    cast_vote st o uid =
      ({ st with
          battles := dictSet st.battles bid
              { b with audience_votes := voteIncr b.audience_votes o } },
       [Envelope.vote_update (voteIncr b.audience_votes o)],
       Except.ok ⟨"Vote cast successfully", voteIncr b.audience_votes o⟩) := by
  simp [cast_vote, h]

theorem currentLookup_setBattle (st : AppState) (bid : String) (b b' : BattleState)
    (h : currentLookup st = some (bid, b)) :
    currentLookup { st with battles := dictSet st.battles bid b' } =
      some (bid, b') := by
  unfold currentLookup at h ⊢
  cases hc : st.current_battle_id with
  | none => rw [hc] at h; exact absurd h (by simp)
  | some bid' =>
    rw [hc] at h
    by_cases he : bid' = ""
    · simp [he] at h
    · simp only [he, if_false] at h ⊢
      cases hg : pyGet? st.battles bid' with
      | none => rw [hg] at h; exact absurd h (by simp)
      | some bb =>
        rw [hg] at h
        have hbid : bid' = bid := by
          simpa using congrArg (fun p => (Option.map Prod.fst p).getD "") h
        subst hbid
        simp [pyGet?_dictSet_self]

theorem castVoteSeq_tally (opts : List String) :
    ∀ (st : AppState) (bid : String) (b : BattleState),
      currentLookup st = some (bid, b) →
      ∃ b', currentLookup (castVoteSeq st opts).1 = some (bid, b') ∧
        (∀ o, pyGet? b'.audience_votes o =
          if opts.count o = 0 then pyGet? b.audience_votes o
          else some ((pyGet? b.audience_votes o).getD 0 + (opts.count o : Int))) ∧
        ((opts = [] ∧ (castVoteSeq st opts).2 = none) ∨
          (castVoteSeq st opts).2 =
            some (Except.ok ⟨"Vote cast successfully", b'.audience_votes⟩)) := by
  induction opts with
  | nil =>
    intro st bid b h
    exact ⟨b, by simpa [castVoteSeq] using h, by simp [castVoteSeq], Or.inl ⟨rfl, rfl⟩⟩
  | cons o os ih =>
    intro st bid b h
    have hstep := cast_vote_active st bid b o "anonymous" h
    set b1 : BattleState := { b with audience_votes := voteIncr b.audience_votes o }
      with hb1
    set st1 : AppState := { st with battles := dictSet st.battles bid b1 } with hst1
    have h1 : currentLookup st1 = some (bid, b1) :=
      currentLookup_setBattle st bid b b1 h
    obtain ⟨b', hcur, htally, hlast⟩ := ih st1 bid b1 h1
    have hseq : castVoteSeq st (o :: os) =
        ((castVoteSeq st1 os).1,
         some ((castVoteSeq st1 os).2.getD
           (Except.ok ⟨"Vote cast successfully", voteIncr b.audience_votes o⟩))) := by
      simp [castVoteSeq, hstep]
    refine ⟨b', by rw [hseq]; exact hcur, ?_, ?_⟩
    · intro q
      have hb1q : pyGet? b1.audience_votes q =
          if q = o then some ((pyGet? b.audience_votes o).getD 0 + 1)
          else pyGet? b.audience_votes q := by
        simpa [hb1] using pyGet?_voteIncr b.audience_votes o q
      rw [htally q, hb1q]
      by_cases hqo : q = o
      · subst hqo
        have hcount : List.count q (q :: os) = List.count q os + 1 := by
          simp [List.count_cons]
        by_cases hz : List.count q os = 0
        · simp [hz, hcount]
        · simp only [hcount]
          simp [hz]
          omega
      · have hcount : List.count q (o :: os) = List.count q os := by
          simp [List.count_cons, hqo]
        simp [hcount, hqo]
    · rcases hlast with ⟨hos, hnone⟩ | hsome
      · subst hos
        have hcur' : currentLookup st1 = some (bid, b') := by
          simpa [castVoteSeq] using hcur
        have hb'1 : b' = b1 := by
          have h3 := hcur'.symm.trans h1
          simpa using h3
        right
        rw [hseq]
        simp [castVoteSeq, hb'1, hb1]
      · right
        rw [hseq, hsome]
        simp

theorem battle_id_ne_empty (t : Nat) : ("battle_" ++ toString t) ≠ "" := by
  intro h
  have hlen := congrArg String.length h
  rw [String.length_append] at hlen
  have h7 : ("battle_" : String).length = 7 := rfl
  have h0 : ("" : String).length = 0 := rfl
  rw [h7, h0] at hlen
  omega

/-- The empty module-level state at process start: no battles, no current
battle, no connections. -/
def st0 : AppState := ⟨[], none, []⟩

/-- The state after one `start_battle` call at `int(time.time()) = 5` with
the spec's example arguments. -/
def stW : AppState := (start_battle st0 5 "hospital" "apt_group" "ai_defender").1

/-- The battle created by that call. -/
def bW : BattleState := (start_battle st0 5 "hospital" "apt_group" "ai_defender").2.2.battle

/-- Claim C4: immediately after any `start_battle(scenario, attacker,
defender)` call, `get_current_battle` returns the battle just created,
and that battle has `is_active = true`, `battle_log = []`,
`audience_votes = {}`, `threat_level = 1` and
`current_phase = "reconnaissance"`. -/
theorem claim_C4_start_then_current (st : AppState) (t : Nat)
    (scenario attacker defender : String) :
    get_current_battle (start_battle st t scenario attacker defender).1 =
      some (start_battle st t scenario attacker defender).2.2.battle ∧
    (start_battle st t scenario attacker defender).2.2.battle.is_active = true ∧
    (start_battle st t scenario attacker defender).2.2.battle.battle_log = [] ∧
    (start_battle st t scenario attacker defender).2.2.battle.audience_votes = [] ∧
    (start_battle st t scenario attacker defender).2.2.battle.threat_level = 1 ∧
    (start_battle st t scenario attacker defender).2.2.battle.current_phase =
      "reconnaissance" := by
  refine ⟨?_, rfl, rfl, rfl, rfl, rfl⟩
  simp only [get_current_battle, currentLookup, start_battle]
  rw [if_neg (battle_id_ne_empty t), pyGet?_dictSet_self]
  rfl

/-- Claim C3 (code bug): the identifier is `"battle_" ++ str(int(time.time()))`,
so two `start_battle` calls within the same wall-clock second return the
same identifier — here both calls at `t = 1757000000` — refuting
"never previously used"; non-emptiness does hold. -/
theorem claim_C3_same_second_collision :
    (start_battle st0 1757000000 "hospital" "apt_group" "ai_defender").2.2.battle_id =
      (start_battle
        (start_battle st0 1757000000 "hospital" "apt_group" "ai_defender").1
        1757000000 "banking" "nation_state" "threat_hunter").2.2.battle_id ∧
    (start_battle st0 1757000000 "hospital" "apt_group" "ai_defender").2.2.battle_id
      ≠ "" := by
  exact ⟨rfl, battle_id_ne_empty 1757000000⟩

/-- Claim C10: `user_id` (including its default `"anonymous"`) has no
influence on the state, broadcasts or response of `cast_vote`. -/
theorem claim_C10_user_id_no_influence (st : AppState) (option u1 u2 : String) :
    cast_vote st option u1 = cast_vote st option u2 := rfl

/-- Claim C5: `broadcast` delivers the payload to every registered session
whose send succeeds, and to exactly those; it is a total function (the
per-session failure is consumed by the bare `except`), so no exception
reaches the caller. -/
theorem claim_C5_broadcast_isolated (send : Nat → String → Except String Unit)
    (conns : List Nat) (message : String) :
    (∀ c, c ∈ conns → (send c message).isOk = true →
        (c, message) ∈ broadcast send conns message) ∧
    broadcast send conns message =
      (conns.filter (fun c => (send c message).isOk)).map
        (fun c => (c, message)) := by
  have hchar : broadcast send conns message =
      (conns.filter (fun c => (send c message).isOk)).map
        (fun c => (c, message)) := by
    induction conns with
    | nil => rfl
    | cons hd tl ih =>
      cases h : send hd message with
      | ok u =>
        simp [broadcast, List.filterMap_cons, h, List.filter_cons, Except.isOk,
          Except.toBool] at ih ⊢
        exact ih
      | error e =>
        simp [broadcast, List.filterMap_cons, h, List.filter_cons, Except.isOk,
          Except.toBool] at ih ⊢
        exact ih
  refine ⟨?_, hchar⟩
  intro c hc hok
  rw [hchar]
  exact List.mem_map.mpr ⟨c, List.mem_filter.mpr ⟨hc, hok⟩, rfl⟩

/-- A send oracle for which session 1's delivery always fails. -/
def sendW : Nat → String → Except String Unit :=
  fun c _ => if c = 1 then Except.error "connection gone" else Except.ok ()

/-- Witness for claim C5 at a concrete registry of three sessions, one of
which always fails. -/
theorem claim_C5_witness :
    (∀ c, c ∈ [0, 1, 2] → (sendW c "payload").isOk = true →
        (c, "payload") ∈ broadcast sendW [0, 1, 2] "payload") ∧
    broadcast sendW [0, 1, 2] "payload" =
      ([0, 1, 2].filter (fun c => (sendW c "payload").isOk)).map
        (fun c => (c, "payload")) :=
  claim_C5_broadcast_isolated sendW [0, 1, 2] "payload"

/-- Claim C7 (code bug): the handler catches only `WebSocketDisconnect`, so
a loop that ends in any other error (here one malformed frame) leaves
the session in `active_connections`; only the clean disconnect path
unregisters it. -/
theorem claim_C7_error_exit_stays_registered :
    (websocket_endpoint st0 7 [Frame.malformed]).1.active_connections = [7] ∧
    (websocket_endpoint st0 7 [Frame.malformed]).2.2 = some ExitKind.errored ∧
    (websocket_endpoint st0 7 [Frame.disconnect]).1.active_connections = [] := by
  exact ⟨rfl, rfl, rfl⟩

/-- Claim C8: an inbound message whose `type` is not `battle_action` is
silently ignored (state kept, nothing broadcast, loop continues), and a
malformed payload ends only that session's loop with the Battle Store,
the registry and the broadcast list untouched, so delivery to other
sessions is unaffected. -/
theorem claim_C8_ignore_and_isolation (st : AppState) (t : String)
    (ui : Option String) (ts : String) (ai ti : Nat) (r : ℚ)
    (hne : t ≠ "battle_action") :
    wsStep st (Frame.typed t ui ts ai ti r) = StepOut.cont st [] ∧
    (∀ rest, wsLoop st (Frame.malformed :: rest) =
      (st, [], some ExitKind.errored)) := by
  constructor
  · simp [wsStep, hne]
  · intro rest
    rfl

/-- Witness for claim C8: a concrete `chat_message` frame against the
started example state. -/
theorem claim_C8_witness :
    ("chat_message" ≠ "battle_action") ∧
    (wsStep stW (Frame.typed "chat_message" (some "hi") "t1" 2 0 (1/2)) =
      StepOut.cont stW [] ∧
    (∀ rest, wsLoop stW (Frame.malformed :: rest) =
      (stW, [], some ExitKind.errored))) :=
  ⟨by decide,
   claim_C8_ignore_and_isolation stW "chat_message" (some "hi") "t1" 2 0 (1/2)
     (by decide)⟩

/-- Claim C1: starting from a current battle with an empty tally, after any
sequence of `cast_vote` calls the stored tally maps each option to
exactly the number of times it was cast (absent when never cast), and
the last call returned that same tally. -/
theorem claim_C1_tally_counts (st : AppState) (bid : String) (b : BattleState)
    (opts : List String)
    (hcur : currentLookup st = some (bid, b))
    (hempty : b.audience_votes = []) :
    ∃ b', currentLookup (castVoteSeq st opts).1 = some (bid, b') ∧
      (∀ o, pyGet? b'.audience_votes o =
        if List.count o opts = 0 then none else some ((List.count o opts : Int))) ∧
      (opts ≠ [] →
        (castVoteSeq st opts).2 =
          some (Except.ok ⟨"Vote cast successfully", b'.audience_votes⟩)) := by
  obtain ⟨b', h1, h2, h3⟩ := castVoteSeq_tally opts st bid b hcur
  refine ⟨b', h1, ?_, ?_⟩
  · intro o
    have ho := h2 o
    rw [hempty] at ho
    simpa [pyGet?] using ho
  · intro hne
    rcases h3 with ⟨h4, _⟩ | h5
    · exact absurd h4 hne
    · exact h5

/-- Witness for claim C1: the example battle, then votes
`["alpha", "beta", "alpha"]`. -/
theorem claim_C1_witness :
    currentLookup stW = some ("battle_5", bW) ∧ bW.audience_votes = [] ∧
    (∃ b', currentLookup (castVoteSeq stW ["alpha", "beta", "alpha"]).1 =
        some ("battle_5", b') ∧
      (∀ o, pyGet? b'.audience_votes o =
        if List.count o ["alpha", "beta", "alpha"] = 0 then none
        else some ((List.count o ["alpha", "beta", "alpha"] : Int))) ∧
      (["alpha", "beta", "alpha"] ≠ ([] : List String) →
        (castVoteSeq stW ["alpha", "beta", "alpha"]).2 =
          some (Except.ok ⟨"Vote cast successfully", b'.audience_votes⟩))) :=
  ⟨rfl, rfl,
   claim_C1_tally_counts stW "battle_5" bW ["alpha", "beta", "alpha"] rfl rfl⟩

/-- The claim's notion of "no battle is current": no battle was ever
started, or the current id is absent from the `battles` mapping. -/
def noCurrentBattle (st : AppState) : Bool :=
  match st.current_battle_id with
  | none => true
  | some bid => (pyGet? st.battles bid).isNone

theorem currentLookup_none_iff (st : AppState)
    (hne : st.current_battle_id ≠ some "") :
    currentLookup st = none ↔ noCurrentBattle st = true := by
  unfold currentLookup noCurrentBattle
  cases hc : st.current_battle_id with
  | none => simp
  | some bid =>
    have hb : ¬ bid = "" := by
      intro h
      exact hne (h ▸ hc)
    cases hg : pyGet? st.battles bid <;> simp [hb, hg]

/-- Claim C2: `cast_vote` fails with the 404 "No active battle" error
exactly when no battle is current; on failure the state is unchanged
and nothing is broadcast; otherwise it returns the updated full tally,
broadcasts exactly one `vote_update` envelope with that tally, and
stores it in the battle. -/
theorem claim_C2_vote_failure_iff (st : AppState) (opt uid : String)
    (hne : st.current_battle_id ≠ some "") :
    ((cast_vote st opt uid).2.2 = Except.error ⟨404, "No active battle"⟩ ↔
      noCurrentBattle st = true) ∧
    (noCurrentBattle st = true →
      (cast_vote st opt uid).1 = st ∧ (cast_vote st opt uid).2.1 = []) ∧
    (noCurrentBattle st = false →
      ∃ bid b, currentLookup st = some (bid, b) ∧
        (cast_vote st opt uid).2.2 =
          Except.ok ⟨"Vote cast successfully", voteIncr b.audience_votes opt⟩ ∧
        (cast_vote st opt uid).2.1 =
          [Envelope.vote_update (voteIncr b.audience_votes opt)] ∧
        currentLookup (cast_vote st opt uid).1 =
          some (bid, { b with audience_votes := voteIncr b.audience_votes opt })) := by
  cases hc : currentLookup st with
  | none =>
    have hno : noCurrentBattle st = true := (currentLookup_none_iff st hne).mp hc
    refine ⟨?_, ?_, ?_⟩
    · simp [cast_vote, hc, hno]
    · intro _
      simp [cast_vote, hc]
    · intro hfalse
      rw [hno] at hfalse
      exact absurd hfalse (by simp)
  | some p =>
    obtain ⟨bid, b⟩ := p
    have hno : noCurrentBattle st = false := by
      cases hnb : noCurrentBattle st with
      | false => rfl
      | true =>
        have := (currentLookup_none_iff st hne).mpr hnb
        rw [hc] at this
        exact absurd this (by simp)
    have hstep := cast_vote_active st bid b opt uid hc
    refine ⟨?_, ?_, ?_⟩
    · rw [hstep, hno]
      simp
    · intro htrue
      rw [hno] at htrue
      exact absurd htrue (by simp)
    · intro _
      refine ⟨bid, b, rfl, ?_, ?_, ?_⟩
      · rw [hstep]
      · rw [hstep]
      · rw [hstep]
        exact currentLookup_setBattle st bid b _ hc

/-- Witness for claim C2: after starting the example battle, one vote for
`"alpha"` succeeds and the failure conditions are all falsified. -/
theorem claim_C2_witness :
    stW.current_battle_id ≠ some "" ∧
    (((cast_vote stW "alpha" "anonymous").2.2 =
        Except.error ⟨404, "No active battle"⟩ ↔ noCurrentBattle stW = true) ∧
    (noCurrentBattle stW = true →
      (cast_vote stW "alpha" "anonymous").1 = stW ∧
      (cast_vote stW "alpha" "anonymous").2.1 = []) ∧
    (noCurrentBattle stW = false →
      ∃ bid b, currentLookup stW = some (bid, b) ∧
        (cast_vote stW "alpha" "anonymous").2.2 =
          Except.ok ⟨"Vote cast successfully", voteIncr b.audience_votes "alpha"⟩ ∧
        (cast_vote stW "alpha" "anonymous").2.1 =
          [Envelope.vote_update (voteIncr b.audience_votes "alpha")] ∧
        currentLookup (cast_vote stW "alpha" "anonymous").1 =
          some (bid,
            { b with audience_votes := voteIncr b.audience_votes "alpha" }))) :=
  ⟨by decide, claim_C2_vote_failure_iff stW "alpha" "anonymous" (by decide)⟩

theorem pyUniform_mem (a b r : ℚ) (hab : a < b) (h0 : 0 ≤ r) (h1 : r < 1) :
    a ≤ pyUniform a b r ∧ pyUniform a b r < b := by
  constructor
  · have hge : 0 ≤ (b - a) * r := mul_nonneg (by linarith) h0
    unfold pyUniform
    linarith
  · have hlt : (b - a) * r < (b - a) * 1 := by
      apply mul_lt_mul_of_pos_left h1
      linarith
    unfold pyUniform
    linarith

theorem randomChoice_labels (i : Nat)
    (h : i % 4 = 1 ∨ i % 4 = 2 ∨ i % 4 = 3) :
    ∃ lbl, randomChoice ["attack", "defend", "reconnaissance", "escalation"] i =
        some lbl ∧ lbl ≠ "attack" := by
  rcases h with h | h | h
  · exact ⟨"defend", by simp [randomChoice, h], by decide⟩
  · exact ⟨"reconnaissance", by simp [randomChoice, h], by decide⟩
  · exact ⟨"escalation", by simp [randomChoice, h], by decide⟩

theorem generate_nonattack (battle : BattleState) (ui : Option String)
    (ts : String) (i ti : Nat) (r : ℚ) (hi : i % 4 ≠ 0) :
    generate_ai_action battle ui ts i ti r =
      match pyGet? ATTACKER_PERSONAS battle.attacker_persona,
            pyGet? DEFENDER_PERSONAS battle.defender_persona with
      | some _, some d =>
        some (Action.defense ts d.name d.strategy
          (d.name ++ " implements " ++ d.strategy) (pyUniform (2/5) (19/20) r))
      | _, _ => none := by
  have h4 : i % 4 < 4 := Nat.mod_lt _ (by norm_num)
  have h : i % 4 = 1 ∨ i % 4 = 2 ∨ i % 4 = 3 := by omega
  obtain ⟨lbl, hlbl, hne⟩ := randomChoice_labels i h
  unfold generate_ai_action
  cases pyGet? ATTACKER_PERSONAS battle.attacker_persona <;>
    cases pyGet? DEFENDER_PERSONAS battle.defender_persona <;>
      simp [hlbl, hne]

/-- Claim C6: when both persona tags resolve, every generated attack Action
uses a technique from the attacker persona's technique list and has
`success_probability ∈ [0.3, 0.9)`, and every generated defense Action
has `effectiveness ∈ [0.4, 0.95)` (uniform draws taken in exact
arithmetic). -/
theorem claim_C6_action_bounds (battle : BattleState) (user_input : Option String)
    (ts : String) (actionIdx techIdx : Nat) (r : ℚ)
    (a : AttackerPersona) (d : DefenderPersona) (act : Action)
    (ha : pyGet? ATTACKER_PERSONAS battle.attacker_persona = some a)
    (hd : pyGet? DEFENDER_PERSONAS battle.defender_persona = some d)
    (hr0 : 0 ≤ r) (hr1 : r < 1)
    (hg : generate_ai_action battle user_input ts actionIdx techIdx r = some act) :
    (∀ ts' actor tech desc tl p, act = Action.attack ts' actor tech desc tl p →
      tech ∈ a.techniques ∧ 3/10 ≤ p ∧ p < 9/10) ∧
    (∀ ts' actor strat desc e, act = Action.defense ts' actor strat desc e →
      2/5 ≤ e ∧ e < 19/20) := by
  by_cases h0 : actionIdx % 4 = 0
  · have hlbl : randomChoice ["attack", "defend", "reconnaissance", "escalation"]
        actionIdx = some "attack" := by
      simp [randomChoice, h0]
    unfold generate_ai_action at hg
    rw [ha, hd, hlbl] at hg
    simp only [if_pos rfl] at hg
    cases htech : randomChoice a.techniques techIdx with
    | none =>
      rw [htech] at hg
      exact absurd hg (by simp)
    | some tech =>
      rw [htech] at hg
      have hact : act = Action.attack ts a.name tech
          (a.name ++ " launches " ++ tech ++ " attack") a.threat_level
          (pyUniform (3/10) (9/10) r) := (Option.some.inj hg).symm
      have hmem : tech ∈ a.techniques := by
        unfold randomChoice at htech
        exact List.get?_mem htech
      have hbounds := pyUniform_mem (3/10) (9/10) r (by norm_num) hr0 hr1
      constructor
      · intro ts' actor tech' desc tl p heq
        rw [hact] at heq
        injection heq with e1 e2 e3 e4 e5 e6
        subst e3
        subst e6
        exact ⟨hmem, hbounds.1, hbounds.2⟩
      · intro ts' actor strat desc e heq
        rw [hact] at heq
        exact absurd heq (by simp)
  · have hchar := generate_nonattack battle user_input ts actionIdx techIdx r h0
    rw [ha, hd] at hchar
    rw [hchar] at hg
    have hact : act = Action.defense ts d.name d.strategy
        (d.name ++ " implements " ++ d.strategy)
        (pyUniform (2/5) (19/20) r) := (Option.some.inj hg).symm
    have hbounds := pyUniform_mem (2/5) (19/20) r (by norm_num) hr0 hr1
    constructor
    · intro ts' actor tech' desc tl p heq
      rw [hact] at heq
      exact absurd heq (by simp)
    · intro ts' actor strat desc e heq
      rw [hact] at heq
      injection heq with e1 e2 e3 e4 e5
      subst e5
      exact ⟨hbounds.1, hbounds.2⟩

/-- The `ATTACKER_PERSONAS` entry for `apt_group`. -/
def aptW : AttackerPersona :=
  ⟨"APT Group", "Advanced Persistent Threat with sophisticated methods", 7,
   ["Zero-day Exploits", "Living off the Land", "Supply Chain Attacks"]⟩

/-- The `DEFENDER_PERSONAS` entry for `ai_defender`. -/
def aiDefW : DefenderPersona :=
  ⟨"AI Defender", "Machine learning powered defense system",
   "Automated threat detection and response"⟩

/-- The attack action generated from `bW` with label index 0, technique
index 0, uniform draw 0. -/
def actW : Action :=
  Action.attack "t0" "APT Group" "Zero-day Exploits"
    "APT Group launches Zero-day Exploits attack" 7 (pyUniform (3/10) (9/10) 0)

/-- Witness for claim C6: a concrete attack action of the example battle. -/
theorem claim_C6_witness :
    pyGet? ATTACKER_PERSONAS bW.attacker_persona = some aptW ∧
    pyGet? DEFENDER_PERSONAS bW.defender_persona = some aiDefW ∧
    (0 : ℚ) ≤ 0 ∧ (0 : ℚ) < 1 ∧
    generate_ai_action bW none "t0" 0 0 0 = some actW ∧
    ((∀ ts' actor tech desc tl p, actW = Action.attack ts' actor tech desc tl p →
        tech ∈ aptW.techniques ∧ 3/10 ≤ p ∧ p < 9/10) ∧
     (∀ ts' actor strat desc e, actW = Action.defense ts' actor strat desc e →
        2/5 ≤ e ∧ e < 19/20)) :=
  ⟨rfl, rfl, le_refl 0, by norm_num, rfl,
   claim_C6_action_bounds bW none "t0" 0 0 0 aptW aiDefW actW rfl rfl
     (le_refl 0) (by norm_num) rfl⟩

/-- Claim C9: for any chosen label other than `"attack"` (indices 1, 2, 3:
defend, reconnaissance, escalation) the generator emits the same defense
Action built from the defender persona, and the viewer-supplied
`user_input` never influences the result. -/
theorem claim_C9_nonattack_uniform (battle : BattleState) (ui1 ui2 : Option String)
    (ts : String) (i j ti tj : Nat) (r : ℚ)
    (hi : i % 4 ≠ 0) (hj : j % 4 ≠ 0) :
    generate_ai_action battle ui1 ts i ti r =
      generate_ai_action battle ui2 ts j tj r ∧
    (∀ idx tIdx, generate_ai_action battle ui1 ts idx tIdx r =
      generate_ai_action battle ui2 ts idx tIdx r) ∧
    (∀ a d, pyGet? ATTACKER_PERSONAS battle.attacker_persona = some a →
      pyGet? DEFENDER_PERSONAS battle.defender_persona = some d →
      generate_ai_action battle ui1 ts i ti r =
        some (Action.defense ts d.name d.strategy
          (d.name ++ " implements " ++ d.strategy)
          (pyUniform (2/5) (19/20) r))) := by
  refine ⟨?_, fun idx tIdx => rfl, ?_⟩
  · rw [generate_nonattack battle ui1 ts i ti r hi,
        generate_nonattack battle ui2 ts j tj r hj]
  · intro a d ha hd
    rw [generate_nonattack battle ui1 ts i ti r hi]
    simp [ha, hd]

/-- Witness for claim C9: labels `defend` (index 1) and `escalation`
(index 3) with different user inputs and technique indices coincide on
the example battle. -/
theorem claim_C9_witness :
    (1 % 4 ≠ 0) ∧ (3 % 4 ≠ 0) ∧
    (generate_ai_action bW none "t1" 1 0 (1/2) =
      generate_ai_action bW (some "go") "t1" 3 2 (1/2) ∧
    (∀ idx tIdx, generate_ai_action bW none "t1" idx tIdx (1/2) =
      generate_ai_action bW (some "go") "t1" idx tIdx (1/2)) ∧
    (∀ a d, pyGet? ATTACKER_PERSONAS bW.attacker_persona = some a →
      pyGet? DEFENDER_PERSONAS bW.defender_persona = some d →
      generate_ai_action bW none "t1" 1 0 (1/2) =
        some (Action.defense "t1" d.name d.strategy
          (d.name ++ " implements " ++ d.strategy)
          (pyUniform (2/5) (19/20) (1/2))))) :=
  ⟨by decide, by decide,
   claim_C9_nonattack_uniform bW none (some "go") "t1" 1 3 0 2 (1/2)
     (by decide) (by decide)⟩

end CyberBattle
